import Mathlib

/-!
Shallow embedding of the scan-session core of the qr-code-reader repository.

The embedding covers:
* the camera service helpers of src/services/cameraService.ts
  (createCameraError, mapDOMExceptionToError, queryCameraPermission,
  getCameraPermissionStatus, requestCameraPermission, enumerateCameraDevices,
  guessFacingMode);
* the device registry of src/hooks/useCameraDevices.ts
  (refreshDevices device resolution, toggleCamera);
* the permission hook of src/hooks/useCameraPermission.ts (requestPermission);
* the two scanner-hook lineages of useQRScanner: the stop-on-success lineage
  (the hook whose statuses are idle/initializing/active/stopped/error) and the
  pause-on-success lineage (statuses idle/initializing/scanning/paused/
  stopped/error), each with handleDecode, startScanner, stopScanner and
  switchCamera.

Asynchronous platform outcomes (does engine.start succeed, does engine.stop
throw, what getUserMedia returns, what the Permissions API answers) are passed
in as explicit oracle arguments; React setState is modelled as an immediate
state update, and every hook operation is a pure function from the hook state
and the oracles to the next state, its return value, and a trace of the
camera actions it performed.
-/

namespace QrReader

/-- Facing mode of a camera: front (user) or rear (environment). -/
inductive FacingMode where
  | user
  | environment
deriving DecidableEq, Repr

/-- Value thrown by the platform. JavaScript lets any value be thrown, so the
model distinguishes DOMException instances, plain Error instances, and every
other value (kept only as its String coercion). -/
inductive JSValue where
  | domException (name : String) (message : String)
  | jsError (message : String)
  | other (stringOf : String)
deriving DecidableEq, Repr

/-- CameraErrorType from src/types/camera.ts. -/
inductive CameraErrorType where
  | NOT_SUPPORTED
  | NOT_SECURE_CONTEXT
  | PERMISSION_DENIED
  | PERMISSION_DISMISSED
  | NO_DEVICES_FOUND
  | DEVICE_IN_USE
  | OVERCONSTRAINED
  | UNKNOWN
deriving DecidableEq, Repr

/-- CameraError from src/types/camera.ts: type, message and the optional
underlying platform error kept for diagnostics. -/
structure CameraError where
  type : CameraErrorType
  message : String
  originalError : Option JSValue := none
deriving DecidableEq, Repr

/-- The errorMap table inside mapDOMExceptionToError in cameraService.ts,
keyed by the DOMException name. -/
def domExceptionErrorMap (name : String) : Option (CameraErrorType × String) :=
  if name = "NotAllowedError" then
    some (.PERMISSION_DENIED,
      "Camera access was denied. Please allow camera permissions in your browser settings.")
  else if name = "NotFoundError" then
    some (.NO_DEVICES_FOUND, "No camera devices were found on this device.")
  else if name = "NotReadableError" then
    some (.DEVICE_IN_USE, "The camera is already in use by another application.")
  else if name = "OverconstrainedError" then
    some (.OVERCONSTRAINED, "The requested camera configuration is not supported.")
  else if name = "AbortError" then
    some (.PERMISSION_DISMISSED, "Camera access request was dismissed.")
  else if name = "SecurityError" then
    some (.NOT_SECURE_CONTEXT, "Camera access requires a secure context (HTTPS).")
  else
    none

/-- mapDOMExceptionToError from cameraService.ts: recognized DOMException
names map through the table, anything else becomes UNKNOWN; the original
exception is attached in both branches, and an empty exception message falls
back to a generic text. -/
def mapDOMExceptionToError (name : String) (message : String) : CameraError :=
  match domExceptionErrorMap name with
  | some mapped =>
      { type := mapped.1, message := mapped.2,
        originalError := some (.domException name message) }
  | none =>
      { type := .UNKNOWN,
        message := if message = "" then "An unknown camera error occurred." else message,
        originalError := some (.domException name message) }

/-- createCameraError from cameraService.ts: DOMException goes through the
mapping table, an Error instance becomes UNKNOWN with the error attached, and
any other thrown value becomes UNKNOWN whose message is its String coercion
(note: that last branch attaches no originalError). -/
def createCameraError : JSValue → CameraError
  | .domException name message => mapDOMExceptionToError name message
  | .jsError message =>
      { type := .UNKNOWN, message := message, originalError := some (.jsError message) }
  | .other stringOf =>
      { type := .UNKNOWN, message := stringOf }

/-- CameraPermissionState from src/types/camera.ts. -/
inductive CameraPermissionState where
  | prompt
  | granted
  | denied
deriving DecidableEq, Repr

/-- CameraPermissionStatus from src/types/camera.ts. -/
structure CameraPermissionStatus where
  state : CameraPermissionState
  isSupported : Bool
  isSecureContext : Bool
  error : Option CameraError := none
deriving DecidableEq, Repr

/-- Platform environment seen by the camera service: whether the MediaDevices
API exists, whether the context is secure, and what the Permissions API query
does (absent, throwing, or answering a state). -/
structure PermEnv where
  mediaDevicesSupported : Bool
  secureContext : Bool
  permissionsApi : Option (Option CameraPermissionState)
deriving DecidableEq, Repr

/-- queryCameraPermission from cameraService.ts: prompt when the Permissions
API is absent, prompt when the query throws, otherwise the queried state. -/
def queryCameraPermission (env : PermEnv) : CameraPermissionState :=
  match env.permissionsApi with
  | none => .prompt
  | some none => .prompt
  | some (some st) => st

/-- getCameraPermissionStatus from cameraService.ts. Total by construction:
the unsupported and insecure cases return denied with a structured error, and
only the supported-and-secure case consults the Permissions API. -/
def getCameraPermissionStatus (env : PermEnv) : CameraPermissionStatus :=
  if env.mediaDevicesSupported = false then
    { state := .denied, isSupported := false, isSecureContext := env.secureContext,
      error := some
        { type := .NOT_SUPPORTED,
          message := "MediaDevices API is not supported in this browser." } }
  else if env.secureContext = false then
    { state := .denied, isSupported := true, isSecureContext := false,
      error := some
        { type := .NOT_SECURE_CONTEXT,
          message := "Camera access requires a secure context (HTTPS or localhost)." } }
  else
    { state := queryCameraPermission env, isSupported := true, isSecureContext := true }

/-- A device record as returned by navigator.mediaDevices.enumerateDevices:
an id, a label (possibly empty before permission is granted) and a kind. -/
structure MediaDeviceInfo where
  deviceId : String
  label : String
  kind : String
deriving DecidableEq, Repr

/-- CameraDevice from src/types/camera.ts. -/
structure CameraDevice where
  deviceId : String
  label : String
  kind : String
  facingMode : Option FacingMode
deriving DecidableEq, Repr

/-- Does the character list p occur as a contiguous run at the head of s. -/
def headMatches : List Char → List Char → Bool
  | _, [] => true
  | [], _ :: _ => false
  | c :: cs, p :: ps => c = p && headMatches cs ps

/-- Does the character list p occur as a contiguous run anywhere in s;
this models the JavaScript String.prototype.includes test. -/
def hasSubstr : List Char → List Char → Bool
  | [], p => p.isEmpty
  | c :: cs, p => headMatches (c :: cs) p || hasSubstr cs p

/-- String version of hasSubstr. -/
def includesStr (s pat : String) : Bool :=
  hasSubstr s.toList pat.toList

/-- Lowercase every character of a string, modelling toLowerCase. -/
def lowercase (s : String) : String :=
  String.mk (s.data.map Char.toLower)

/-- guessFacingMode from cameraService.ts: the facing mode is guessed from
the lowercased device label. -/
def guessFacingMode (label : String) : Option FacingMode :=
  let lowerLabel := lowercase label
  if includesStr lowerLabel "front" || includesStr lowerLabel "user" then
    some .user
  else if includesStr lowerLabel "back" || includesStr lowerLabel "rear"
      || includesStr lowerLabel "environment" then
    some .environment
  else
    none

/-- enumerateCameraDevices from cameraService.ts. The platformDevices oracle
is none when navigator.mediaDevices.enumerateDevices throws. The videoinput
entries are kept, in order; each entry whose platform label is empty gets the
fallback label Camera N with N its 1-based position in the filtered list, and
the facing mode is guessed from the original platform label. -/
def enumerateCameraDevices (supported : Bool)
    (platformDevices : Option (List MediaDeviceInfo)) : List CameraDevice :=
  if supported = false then
    []
  else
    match platformDevices with
    | none => []
    | some devices =>
        ((devices.filter (fun d => decide (d.kind = "videoinput"))).enum).map
          (fun p =>
            { deviceId := p.2.deviceId,
              label := if p.2.label = "" then "Camera " ++ toString (p.1 + 1) else p.2.label,
              kind := "videoinput",
              facingMode := guessFacingMode p.2.label })

/-- CameraPreference from useCameraDevices.ts, persisted in localStorage;
the default preference has an empty deviceId and environment facing mode. -/
structure CameraPreference where
  deviceId : String
  facingMode : FacingMode
deriving DecidableEq, Repr

/-- findDeviceByFacingMode from useCameraDevices.ts. -/
def findDeviceByFacingMode (devices : List CameraDevice) (fm : FacingMode) :
    Option CameraDevice :=
  devices.find? (fun d => decide (d.facingMode = some fm))

/-- The facing mode opposite to the given one, as computed inline at the
call sites in useCameraDevices.ts. -/
def oppositeFacing : FacingMode → FacingMode
  | .user => .environment
  | .environment => .user

/-- findOppositeCamera from useCameraDevices.ts. -/
def findOppositeCamera (devices : List CameraDevice) (currentFacingMode : FacingMode) :
    Option CameraDevice :=
  findDeviceByFacingMode devices (oppositeFacing currentFacingMode)

/-- The device-selection logic of refreshDevices in useCameraDevices.ts:
try the saved deviceId when one is saved (a saved empty string is falsy in
the source and skips this step), then the saved facing mode, then the first
available device, else none. -/
def resolveDefaultDevice (preference : CameraPreference)
    (available : List CameraDevice) : Option CameraDevice :=
  let byId : Option CameraDevice :=
    if preference.deviceId = "" then none
    else available.find? (fun d => decide (d.deviceId = preference.deviceId))
  let afterFacing : Option CameraDevice :=
    match byId with
    | some d => some d
    | none => findDeviceByFacingMode available preference.facingMode
  match afterFacing with
  | some d => some d
  | none => if available.length > 0 then available.head? else none

/-- Resolution chain written from the specification text: (a) exact
device-id match when a preferred deviceId is present, else (b) first device
matching the preferred facing mode, else (c) first available device, else
(d) none. -/
def resolveDefaultChainSpec (preference : CameraPreference)
    (available : List CameraDevice) : Option CameraDevice :=
  match (if preference.deviceId = "" then none
         else available.find? (fun d => decide (d.deviceId = preference.deviceId))) with
  | some d => some d
  | none =>
      match available.find? (fun d => decide (d.facingMode = some preference.facingMode)) with
      | some d => some d
      | none => available.head?

/-- State of the useCameraDevices hook that toggleCamera reads and writes:
the enumerated device list, the current selection, the facing-mode flag, and
the last preference written to localStorage. -/
structure DevState where
  devices : List CameraDevice
  selectedDevice : Option CameraDevice
  facingMode : FacingMode
  savedPreference : Option CameraPreference
deriving DecidableEq, Repr

/-- The search for any device other than the current selection, from the
no-opposite-device branch of toggleCamera (a null selection lets every
device qualify, as the JavaScript comparison with undefined does). -/
def findOtherDevice (s : DevState) : Option CameraDevice :=
  s.devices.find? (fun d =>
    match s.selectedDevice with
    | some sel => decide (d.deviceId ≠ sel.deviceId)
    | none => true)

/-- toggleCamera from useCameraDevices.ts. -/
def toggleCamera (s : DevState) : DevState :=
  match findOppositeCamera s.devices s.facingMode with
  | some oppositeDevice =>
      let newFacingMode := oppositeDevice.facingMode.getD (oppositeFacing s.facingMode)
      { s with selectedDevice := some oppositeDevice,
               facingMode := newFacingMode,
               savedPreference := some
                 { deviceId := oppositeDevice.deviceId, facingMode := newFacingMode } }
  | none =>
      let newFacingMode := oppositeFacing s.facingMode
      match findOtherDevice s with
      | some otherDevice =>
          { s with selectedDevice := some otherDevice,
                   facingMode := newFacingMode,
                   savedPreference := some
                     { deviceId := otherDevice.deviceId, facingMode := newFacingMode } }
      | none =>
          { s with facingMode := newFacingMode,
                   savedPreference := some
                     { deviceId := (s.selectedDevice.map (fun d => d.deviceId)).getD "",
                       facingMode := newFacingMode } }

/-- QRScanResult from src/types/scanner.ts. -/
structure QRScanResult where
  text : String
  format : String
  timestamp : Nat
deriving DecidableEq, Repr

/-- QRScannerErrorType from src/types/scanner.ts. -/
inductive QRScannerErrorType where
  | CAMERA_NOT_STARTED
  | SCANNER_INITIALIZATION_FAILED
  | SCANNER_START_FAILED
  | SCANNER_STOP_FAILED
  | NO_CAMERA_AVAILABLE
  | UNKNOWN
deriving DecidableEq, Repr

/-- QRScannerError from src/types/scanner.ts (the originalError diagnostic
field is dropped here; the claims under study do not mention it). -/
structure QRScannerError where
  type : QRScannerErrorType
  message : String
deriving DecidableEq, Repr

/-- The html5-qrcode engine collaborator as the hook observes it: only its
isScanning flag is consulted by the source. -/
structure Engine where
  isScanning : Bool
deriving DecidableEq, Repr

/-- Camera actions a hook operation performs against the platform, in
order. engineCreate is the Html5Qrcode constructor binding a new engine
instance to the render target; streamRequest is the engine start call
requesting a camera stream (granted records whether the start succeeded);
engineStop is a completed engine stop, which stops every track of the
stream the engine held; engineStopFailed is an engine stop call that threw
and released nothing. -/
inductive CamAction where
  | engineCreate
  | streamRequest (granted : Bool)
  | engineStop
  | engineStopFailed
deriving DecidableEq, Repr

/-- Number of live camera streams after one camera action, given the number
before it. -/
def streamStep (n : Nat) : CamAction → Nat
  | .engineCreate => n
  | .streamRequest granted => if granted then n + 1 else n
  | .engineStop => 0
  | .engineStopFailed => n

/-- The running live-stream counts along a trace of camera actions,
starting from n streams: the count before the first action and after each
action in turn. -/
def streamCounts (n : Nat) : List CamAction → List Nat
  | [] => [n]
  | a :: rest => n :: streamCounts (streamStep n a) rest

/-- The camera-target options taken by switchCamera. -/
structure CameraOpts where
  deviceId : Option String
  facingMode : Option FacingMode
deriving DecidableEq, Repr

namespace StopLineage

/-- QRScannerStatus of the stop-on-success lineage of useQRScanner (the
ScannerWorkflowStatus vocabulary from src/types/workflow.ts). -/
inductive ScannerStatus where
  | idle
  | initializing
  | active
  | stopped
  | error
deriving DecidableEq, Repr

/-- The hook state of the stop-on-success useQRScanner: the status and
lastResult and error React states, the scannerRef engine reference, and the
currentCameraConfigRef written by switchCamera. -/
structure ScannerState where
  status : ScannerStatus
  lastResult : Option QRScanResult
  error : Option QRScannerError
  engine : Option Engine
  cameraConfig : Option CameraOpts
deriving DecidableEq, Repr

/-- handleDecode of the stop-on-success lineage. It builds the result with
the formatName of the decode metadata (falling back to QR_CODE), stops the
engine when it is scanning (swallowing stop errors), stores the result,
returns the status to idle, and calls the onScan callback. The returned
list holds the results emitted downstream through onScan; note that the
source has no guard, so the emission happens on every invocation. -/
def handleDecode (s : ScannerState) (decodedText : String)
    (formatName : Option String) (now : Nat) :
    ScannerState × List QRScanResult :=
  let result : QRScanResult :=
    { text := decodedText, format := formatName.getD "QR_CODE", timestamp := now }
  let engineAfter : Option Engine :=
    match s.engine with
    | some _ => some { isScanning := false }
    | none => none
  ({ s with engine := engineAfter, lastResult := some result, status := .idle },
   [result])

/-- startScanner of the stop-on-success lineage. Rejects with false and no
effect when the status is already active or initializing; otherwise it
creates the engine when none exists, requests the camera stream, and ends
active (returning true) or in the error status with a SCANNER_START_FAILED
error (returning false). The startOk oracle tells whether the awaited
engine start succeeded, and errMsg is the message of the value it threw. -/
def startScanner (s : ScannerState) (startOk : Bool) (errMsg : String) :
    ScannerState × Bool × List CamAction :=
  if s.status = .active ∨ s.status = .initializing then
    (s, false, [])
  else
    let createActs : List CamAction := if s.engine.isNone then [.engineCreate] else []
    if startOk then
      ({ s with status := .active, error := none, engine := some { isScanning := true } },
       true, createActs ++ [.streamRequest true])
    else
      ({ s with
          status := .error,
          error := some
            { type := .SCANNER_START_FAILED,
              message := "Failed to start scanner: " ++ errMsg },
          engine := some { isScanning := false } },
       false, createActs ++ [.streamRequest false])

/-- stopScanner of the stop-on-success lineage. A no-op without an engine;
with an engine it awaits the engine stop only when the engine reports
itself scanning, then sets the status to stopped; a throwing stop records a
SCANNER_STOP_FAILED error and leaves the status alone. -/
def stopScanner (s : ScannerState) (stopOk : Bool) (errMsg : String) :
    ScannerState × List CamAction :=
  match s.engine with
  | none => (s, [])
  | some eng =>
      if eng.isScanning then
        if stopOk then
          ({ s with status := .stopped, engine := some { isScanning := false } },
           [.engineStop])
        else
          ({ s with
              error := some
                { type := .SCANNER_STOP_FAILED,
                  message := "Failed to stop scanner: " ++ errMsg } },
           [.engineStopFailed])
      else
        ({ s with status := .stopped }, [])

/-- switchCamera of the stop-on-success lineage. It records the requested
camera options, then, when the engine is scanning, awaits the engine stop to
settlement inside an empty catch block: the stopOk oracle tells whether that
stop completed (releasing every track, traced as engineStop) or threw
(releasing nothing, traced as engineStopFailed); either way no error is
surfaced and the code proceeds to start on the new camera exactly as
startScanner does. The return value is the outcome of that start. An engine
whose stop threw is conservatively kept scanning - its stream was not
released - while a completed stop leaves it stopped. -/
def switchCamera (s : ScannerState) (options : CameraOpts)
    (stopOk : Bool) (startOk : Bool) (errMsg : String) :
    ScannerState × Bool × List CamAction :=
  let wasScanning : Bool :=
    match s.engine with
    | some eng => eng.isScanning
    | none => false
  let stopActs : List CamAction :=
    if wasScanning then
      if stopOk then [.engineStop] else [.engineStopFailed]
    else []
  let engineAfterStop : Option Engine :=
    match s.engine with
    | some eng => some { isScanning := eng.isScanning && !stopOk }
    | none => none
  let createActs : List CamAction := if engineAfterStop.isNone then [.engineCreate] else []
  if startOk then
    ({ s with
        status := .active, error := none, engine := some { isScanning := true },
        cameraConfig := some options },
     true, stopActs ++ createActs ++ [.streamRequest true])
  else
    ({ s with
        status := .error,
        error := some
          { type := .SCANNER_START_FAILED,
            message := "Failed to switch camera: " ++ errMsg },
        engine :=
          (match engineAfterStop with
           | some eng => some eng
           | none => some { isScanning := false }),
        cameraConfig := some options },
     false, stopActs ++ createActs ++ [.streamRequest false])

/-- Number of live camera streams implied by a hook state: one exactly when
the engine exists and is scanning. -/
def liveStreams (s : ScannerState) : Nat :=
  match s.engine with
  | some eng => if eng.isScanning then 1 else 0
  | none => 0

end StopLineage

namespace PauseLineage

/-- QRScannerStatus of the pause-on-success lineage of useQRScanner. -/
inductive ScannerStatus where
  | idle
  | initializing
  | scanning
  | paused
  | stopped
  | error
deriving DecidableEq, Repr

/-- The hook state of the pause-on-success useQRScanner; isPaused is the
isPausedRef guard consulted by handleDecode. -/
structure ScannerState where
  status : ScannerStatus
  lastResult : Option QRScanResult
  error : Option QRScannerError
  isPaused : Bool
  engine : Option Engine
deriving DecidableEq, Repr

/-- handleDecode of the pause-on-success lineage. A decode callback that
arrives while isPaused holds is discarded: no state change, no emission.
Otherwise the scanner auto-pauses, stores the result, moves to the paused
status and emits the result through onScan exactly once. -/
def handleDecode (s : ScannerState) (decodedText : String)
    (formatName : Option String) (now : Nat) :
    ScannerState × List QRScanResult :=
  if s.isPaused then
    (s, [])
  else
    let result : QRScanResult :=
      { text := decodedText, format := formatName.getD "QR_CODE", timestamp := now }
    ({ s with isPaused := true, lastResult := some result, status := .paused },
     [result])

/-- startScanner of the pause-on-success lineage; identical to the
stop-on-success one except that the running status is called scanning and a
successful start also clears the isPaused guard. -/
def startScanner (s : ScannerState) (startOk : Bool) (errMsg : String) :
    ScannerState × Bool × List CamAction :=
  if s.status = .scanning ∨ s.status = .initializing then
    (s, false, [])
  else
    let createActs : List CamAction := if s.engine.isNone then [.engineCreate] else []
    if startOk then
      ({ s with
          status := .scanning, error := none, isPaused := false,
          engine := some { isScanning := true } },
       true, createActs ++ [.streamRequest true])
    else
      ({ s with
          status := .error,
          error := some
            { type := .SCANNER_START_FAILED,
              message := "Failed to start scanner: " ++ errMsg },
          engine := some { isScanning := false } },
       false, createActs ++ [.streamRequest false])

end PauseLineage

/-- CameraStreamResult from src/types/camera.ts; the stream is modelled by
its presence. -/
structure CameraStreamResult where
  hasStream : Bool
  error : Option CameraError := none
deriving DecidableEq, Repr

/-- requestCameraPermission from cameraService.ts, paired with the number
of getUserMedia calls it performs (each such call can raise the platform
permission prompt). The grant oracle is none when getUserMedia resolves
with a stream and otherwise holds the value it rejected with. -/
def requestCameraPermission (env : PermEnv) (grant : Option JSValue) :
    CameraStreamResult × Nat :=
  if env.mediaDevicesSupported = false then
    ({ hasStream := false,
       error := some
         { type := .NOT_SUPPORTED,
           message := "MediaDevices API is not supported in this browser." } }, 0)
  else if env.secureContext = false then
    ({ hasStream := false,
       error := some
         { type := .NOT_SECURE_CONTEXT,
           message := "Camera access requires a secure context (HTTPS or localhost)." } }, 0)
  else
    match grant with
    | none => ({ hasStream := true }, 1)
    | some e => ({ hasStream := false, error := some (createCameraError e) }, 1)

namespace PermissionHook

/-- State of the useCameraPermission hook: the status, stream, isRequesting
and error React states. -/
structure HookState where
  status : Option CameraPermissionStatus
  hasStream : Bool
  isRequesting : Bool
  error : Option CameraError
deriving DecidableEq, Repr

/-- requestPermission from useCameraPermission.ts. A call that begins while
isRequesting already holds returns false at once, leaving the state and the
platform untouched; otherwise it marks the request in flight, clears the
error, performs requestCameraPermission, and folds the outcome into the
status and error states before clearing isRequesting. The Nat component
counts the getUserMedia calls performed (the platform prompts that this
call could trigger). -/
def requestPermission (s : HookState) (env : PermEnv) (grant : Option JSValue) :
    HookState × Bool × Nat :=
  if s.isRequesting then
    (s, false, 0)
  else
    let s0 : HookState := { s with isRequesting := true, error := none }
    let outcome := requestCameraPermission env grant
    let result := outcome.1
    if result.hasStream then
      ({ s0 with
          hasStream := true,
          status := some
            (match s0.status with
             | some prev => { prev with state := .granted }
             | none =>
                 { state := .granted, isSupported := true, isSecureContext := true }),
          isRequesting := false },
       true, outcome.2)
    else
      let s1 : HookState :=
        match result.error with
        | some e =>
            let sErr : HookState := { s0 with error := some e }
            if e.type = .PERMISSION_DENIED then
              { sErr with
                  status := some
                    (match sErr.status with
                     | some prev => { prev with state := .denied, error := some e }
                     | none =>
                         { state := .denied, isSupported := true,
                           isSecureContext := true, error := some e }) }
            else sErr
        | none => s0
      ({ s1 with isRequesting := false }, false, outcome.2)

end PermissionHook

/-- A stop-on-success hook state with a running capture: status active and a
scanning engine bound. -/
def activeStopState : StopLineage.ScannerState :=
  { status := .active, lastResult := none, error := none,
    engine := some { isScanning := true }, cameraConfig := none }

/-- A pause-on-success hook state with a running capture: status scanning,
not paused, and a scanning engine bound. -/
def scanningPauseState : PauseLineage.ScannerState :=
  { status := .scanning, lastResult := none, error := none, isPaused := false,
    engine := some { isScanning := true } }

/-- C1: the stop-on-success handleDecode (src/unnamed/part_003) has no guard
on its emission: evaluated at the failing input, a second delivery of the
same still-visible code after the first decode has stopped the engine and
returned the status to idle emits a second result downstream and overwrites
the stored one, while the pause-on-success handleDecode (the useQRScanner in
cameraService.ts) discards the second delivery with no state change and no
emission thanks to its isPaused guard. -/
theorem handleDecode_reemits_in_stop_lineage :
    (StopLineage.handleDecode activeStopState "WIFI:T:WPA;S:TestNet;P:secret;;" none 1000).1.status
        = .idle ∧
    (StopLineage.handleDecode activeStopState "WIFI:T:WPA;S:TestNet;P:secret;;" none 1000).1.engine
        = some { isScanning := false } ∧
    (StopLineage.handleDecode activeStopState "WIFI:T:WPA;S:TestNet;P:secret;;" none 1000).2.length
        = 1 ∧
    (StopLineage.handleDecode
        (StopLineage.handleDecode activeStopState "WIFI:T:WPA;S:TestNet;P:secret;;" none 1000).1
        "WIFI:T:WPA;S:TestNet;P:secret;;" none 1001).2.length = 1 ∧
    (StopLineage.handleDecode
        (StopLineage.handleDecode activeStopState "WIFI:T:WPA;S:TestNet;P:secret;;" none 1000).1
        "WIFI:T:WPA;S:TestNet;P:secret;;" none 1001).1.lastResult
      ≠ (StopLineage.handleDecode activeStopState "WIFI:T:WPA;S:TestNet;P:secret;;" none 1000).1.lastResult ∧
    (PauseLineage.handleDecode scanningPauseState "WIFI:T:WPA;S:TestNet;P:secret;;" none 1000).2.length
        = 1 ∧
    (PauseLineage.handleDecode
        (PauseLineage.handleDecode scanningPauseState "WIFI:T:WPA;S:TestNet;P:secret;;" none 1000).1
        "WIFI:T:WPA;S:TestNet;P:secret;;" none 1001).2 = [] ∧
    (PauseLineage.handleDecode
        (PauseLineage.handleDecode scanningPauseState "WIFI:T:WPA;S:TestNet;P:secret;;" none 1000).1
        "WIFI:T:WPA;S:TestNet;P:secret;;" none 1001).1
      = (PauseLineage.handleDecode scanningPauseState "WIFI:T:WPA;S:TestNet;P:secret;;" none 1000).1 := by
  decide

/-- C2: a startScanner call issued while the status is already active (or
scanning, in the pause lineage) or initializing returns false and performs
no side effect: the state is returned unchanged (no status change, no error
recorded) and the camera-action trace is empty, so no engine instance is
created or bound to the render target. -/
theorem startScanner_rejected_while_running (s : StopLineage.ScannerState)
    (p : PauseLineage.ScannerState) (startOk : Bool) (errMsg : String)
    (hs : s.status = .active ∨ s.status = .initializing)
    (hp : p.status = .scanning ∨ p.status = .initializing) :
    StopLineage.startScanner s startOk errMsg = (s, false, []) ∧
    PauseLineage.startScanner p startOk errMsg = (p, false, []) := by
  constructor
  · unfold StopLineage.startScanner
    rcases hs with h | h <;> simp [h]
  · unfold PauseLineage.startScanner
    rcases hp with h | h <;> simp [h]

/-- Witness for C2 at concrete running states. -/
theorem startScanner_rejected_while_running_witness :
    StopLineage.startScanner activeStopState true "boom" = (activeStopState, false, []) ∧
    PauseLineage.startScanner scanningPauseState true "boom" = (scanningPauseState, false, []) :=
  startScanner_rejected_while_running activeStopState scanningPauseState true "boom"
    (Or.inl rfl) (Or.inl rfl)

/-- C3 counterexample: a switchCamera call issued while a capture runs,
whose engine stop throws and whose start on the new camera succeeds,
requests the new stream without the old one having been released: its trace
holds no completed engineStop before the stream request, and the live-stream
count along the trace reaches two concurrent streams, refuting the claim
that for every such call the old stream's tracks are all stopped before the
new stream is requested. -/
theorem switchCamera_throwing_stop_leaks_stream :
    (StopLineage.switchCamera activeStopState
        { deviceId := none, facingMode := some .user } false true "x").2.2
      = [.engineStopFailed, .streamRequest true] ∧
    CamAction.engineStop ∉
      (StopLineage.switchCamera activeStopState
        { deviceId := none, facingMode := some .user } false true "x").2.2 ∧
    2 ∈ streamCounts (StopLineage.liveStreams activeStopState)
      (StopLineage.switchCamera activeStopState
        { deviceId := none, facingMode := some .user } false true "x").2.2 := by
  decide

/-- C3 (amended): a switchCamera call issued while a capture runs (the
engine is scanning) awaits the engine's stop to settlement before the single
new stream request; whenever that stop completes, the old stream is fully
released (all tracks stopped) before the new stream is requested and the
live-stream count along the trace never exceeds one. In either case no
second engine instance is created, the call returns exactly the start
outcome, and the stop outcome is swallowed: it surfaces no error and leaves
the returned value, status and error those of the start outcome alone. -/
theorem switchCamera_releases_before_request (s : StopLineage.ScannerState)
    (options : CameraOpts) (stopOk startOk : Bool) (errMsg : String)
    (h : s.engine = some { isScanning := true }) :
    (StopLineage.switchCamera s options stopOk startOk errMsg).2.2
        = (if stopOk then [CamAction.engineStop] else [CamAction.engineStopFailed])
            ++ [.streamRequest startOk] ∧
    (stopOk = true →
      (StopLineage.switchCamera s options stopOk startOk errMsg).2.2
          = [.engineStop, .streamRequest startOk] ∧
      (∀ c ∈ streamCounts (StopLineage.liveStreams s)
          (StopLineage.switchCamera s options stopOk startOk errMsg).2.2, c ≤ 1)) ∧
    (StopLineage.switchCamera s options stopOk startOk errMsg).2.1 = startOk ∧
    (StopLineage.switchCamera s options stopOk startOk errMsg).1.status
        = (StopLineage.switchCamera s options true startOk errMsg).1.status ∧
    (StopLineage.switchCamera s options stopOk startOk errMsg).1.error
        = (StopLineage.switchCamera s options true startOk errMsg).1.error ∧
    (StopLineage.switchCamera s options stopOk startOk errMsg).1.status
        = (if startOk then .active else .error) ∧
    CamAction.engineCreate ∉ (StopLineage.switchCamera s options stopOk startOk errMsg).2.2 := by
  unfold StopLineage.switchCamera StopLineage.liveStreams
  cases stopOk <;> cases startOk <;> simp [h, streamCounts, streamStep]

/-- Witness for C3 at a concrete running state whose stop completes. -/
theorem switchCamera_releases_before_request_witness :
    (StopLineage.switchCamera activeStopState
        { deviceId := none, facingMode := some .user } true true "x").2.2
      = [.engineStop, .streamRequest true] :=
  ((switchCamera_releases_before_request activeStopState
    { deviceId := none, facingMode := some .user } true true "x" rfl).2.1 rfl).1

/-- The rear-facing example device of the specification's device-resolution
scenario. -/
def deviceA : CameraDevice :=
  { deviceId := "a", label := "Back Camera", kind := "videoinput",
    facingMode := some .environment }

/-- The front-facing example device of the specification's
device-resolution scenario. -/
def deviceB : CameraDevice :=
  { deviceId := "b", label := "Front Camera", kind := "videoinput",
    facingMode := some .user }

/-- C4: the device resolution of refreshDevices follows exactly the chain
saved-device-id match, then facing-mode match, then first available device,
then none; at the specification's example input (devices a/environment and
b/user, preference deviceId c with facing mode environment) it resolves to
device a. -/
theorem resolveDefaultDevice_follows_chain :
    (∀ preference available,
        resolveDefaultDevice preference available
          = resolveDefaultChainSpec preference available) ∧
    resolveDefaultDevice { deviceId := "c", facingMode := .environment } [deviceA, deviceB]
      = some deviceA := by
  constructor
  · intro preference available
    unfold resolveDefaultDevice resolveDefaultChainSpec findDeviceByFacingMode
    cases hid : (if preference.deviceId = "" then (none : Option CameraDevice)
        else available.find? fun d => decide (d.deviceId = preference.deviceId)) <;>
      cases hfm : available.find? (fun d => decide (d.facingMode = some preference.facingMode)) <;>
      cases available <;> simp_all
  · decide

/-- C5: toggleCamera selects the first device advertising the opposite
facing mode when one exists (persisting it with the flipped facing mode);
with no opposite-facing device it still flips the facing-mode flag and, when
some other physical device exists, selects the first such device; otherwise
it keeps the current selection and only persists the flipped facing mode. -/
theorem toggleCamera_spec (s : DevState) :
    (∀ opp, findOppositeCamera s.devices s.facingMode = some opp →
        (toggleCamera s).selectedDevice = some opp ∧
        (toggleCamera s).facingMode = oppositeFacing s.facingMode ∧
        (toggleCamera s).savedPreference
          = some { deviceId := opp.deviceId, facingMode := oppositeFacing s.facingMode }) ∧
    (findOppositeCamera s.devices s.facingMode = none →
        (toggleCamera s).facingMode = oppositeFacing s.facingMode ∧
        (∀ other, findOtherDevice s = some other →
            (toggleCamera s).selectedDevice = some other ∧
            (toggleCamera s).savedPreference
              = some { deviceId := other.deviceId,
                       facingMode := oppositeFacing s.facingMode }) ∧
        (findOtherDevice s = none →
            (toggleCamera s).selectedDevice = s.selectedDevice ∧
            (toggleCamera s).savedPreference
              = some { deviceId := (s.selectedDevice.map (fun d => d.deviceId)).getD "",
                       facingMode := oppositeFacing s.facingMode })) := by
  constructor
  · intro opp hopp
    have hface := List.find?_some hopp
    have hface2 : opp.facingMode = some (oppositeFacing s.facingMode) :=
      of_decide_eq_true hface
    simp [toggleCamera, hopp, hface2]
  · intro hnone
    refine ⟨?_, ?_, ?_⟩
    · cases hother : findOtherDevice s <;> simp [toggleCamera, hnone, hother]
    · intro other hother
      simp [toggleCamera, hnone, hother]
    · intro hother
      simp [toggleCamera, hnone, hother]

/-- An example device with no recognizable facing mode. -/
def deviceC : CameraDevice :=
  { deviceId := "c", label := "Integrated Webcam", kind := "videoinput",
    facingMode := none }

/-- Witness for C5: toggling from the environment camera of the a/b pair
selects the user-facing device b, and toggling with only one unclassified
device keeps the selection while flipping the facing-mode flag. -/
theorem toggleCamera_spec_witness :
    (toggleCamera
        { devices := [deviceA, deviceB], selectedDevice := some deviceA,
          facingMode := .environment, savedPreference := none }).selectedDevice
      = some deviceB ∧
    (toggleCamera
        { devices := [deviceC], selectedDevice := some deviceC,
          facingMode := .environment, savedPreference := none }).selectedDevice
      = some deviceC ∧
    (toggleCamera
        { devices := [deviceC], selectedDevice := some deviceC,
          facingMode := .environment, savedPreference := none }).facingMode
      = .user := by
  refine ⟨?_, ?_, ?_⟩
  · exact ((toggleCamera_spec
      { devices := [deviceA, deviceB], selectedDevice := some deviceA,
        facingMode := .environment, savedPreference := none }).1 deviceB (by decide)).1
  · exact (((toggleCamera_spec
      { devices := [deviceC], selectedDevice := some deviceC,
        facingMode := .environment, savedPreference := none }).2 (by decide)).2.2 (by decide)).1
  · exact ((toggleCamera_spec
      { devices := [deviceC], selectedDevice := some deviceC,
        facingMode := .environment, savedPreference := none }).2 (by decide)).1

/-- C6: stopScanner of the stop-on-success lineage is idempotent. With no
engine ever created it is a no-op: same state, no trace, no error. With an
engine that already reports itself stopped it performs no engine stop call,
records no error and only sets the status to stopped. Two calls in a row
(the first engine stop succeeding) record no error; they leave the state
untouched when no engine exists and leave the status stopped when one
does. -/
theorem stopScanner_idempotent (s : StopLineage.ScannerState) (ok : Bool)
    (m1 m2 m3 : String) :
    (s.engine = none → StopLineage.stopScanner s ok m1 = (s, [])) ∧
    (∀ eng, s.engine = some eng → eng.isScanning = false →
        StopLineage.stopScanner s ok m1 = ({ s with status := .stopped }, [])) ∧
    ((StopLineage.stopScanner (StopLineage.stopScanner s true m2).1 ok m3).1.error
        = s.error ∧
      (s.engine = none →
        (StopLineage.stopScanner (StopLineage.stopScanner s true m2).1 ok m3).1 = s) ∧
      (∀ eng, s.engine = some eng →
        (StopLineage.stopScanner (StopLineage.stopScanner s true m2).1 ok m3).1.status
          = .stopped)) := by
  refine ⟨?_, ?_, ?_, ?_, ?_⟩
  · intro h
    simp [StopLineage.stopScanner, h]
  · intro eng h hscan
    simp [StopLineage.stopScanner, h, hscan]
  · cases h : s.engine with
    | none => simp [StopLineage.stopScanner, h]
    | some eng => cases heng : eng.isScanning <;>
        simp [StopLineage.stopScanner, h, heng]
  · intro h
    simp [StopLineage.stopScanner, h]
  · intro eng h
    cases heng : eng.isScanning <;>
      simp [StopLineage.stopScanner, h, heng]

/-- Witness for C6: a state with no engine (status idle) and a state whose
engine already stopped. -/
theorem stopScanner_idempotent_witness :
    StopLineage.stopScanner
        { status := .idle, lastResult := none, error := none,
          engine := none, cameraConfig := none } true "x"
      = ({ status := .idle, lastResult := none, error := none,
           engine := none, cameraConfig := none }, []) ∧
    StopLineage.stopScanner
        { status := .idle, lastResult := none, error := none,
          engine := some { isScanning := false }, cameraConfig := none } true "x"
      = ({ status := .stopped, lastResult := none, error := none,
           engine := some { isScanning := false }, cameraConfig := none }, []) := by
  constructor
  · exact (stopScanner_idempotent
      { status := .idle, lastResult := none, error := none,
        engine := none, cameraConfig := none } true "x" "y" "z").1 rfl
  · exact (stopScanner_idempotent
      { status := .idle, lastResult := none, error := none,
        engine := some { isScanning := false }, cameraConfig := none } true "x" "y" "z").2.1
      { isScanning := false } rfl rfl

/-- C7 counterexample: a thrown value that is neither an Error nor a
DOMException (here the thrown string whose String coercion is boom) maps to
UNKNOWN with no originalError attached, so the original error is not
preserved for diagnostics in that case, contrary to the claim. -/
theorem createCameraError_drops_nonerror_value :
    createCameraError (.other "boom")
      = { type := .UNKNOWN, message := "boom", originalError := none } ∧
    (createCameraError (.other "boom")).originalError = none := by
  decide

/-- C7 (amended): every recognized DOMException denial reason maps to its
dedicated error kind from the closed set; every unmapped reason falls back
to UNKNOWN. The original error is preserved in originalError for every
DOMException (mapped or not) and for every Error instance; a thrown value
of any other shape is kept only as its String coercion in the message,
with no originalError. -/
theorem createCameraError_mapping (name message stringOf : String) :
    (createCameraError (.domException name message)).type
        = ((domExceptionErrorMap name).map Prod.fst).getD .UNKNOWN ∧
    (createCameraError (.domException name message)).originalError
        = some (.domException name message) ∧
    createCameraError (.jsError message)
        = { type := .UNKNOWN, message := message,
            originalError := some (.jsError message) } ∧
    createCameraError (.other stringOf)
        = { type := .UNKNOWN, message := stringOf, originalError := none } ∧
    (createCameraError (.domException "NotAllowedError" message)).type
        = .PERMISSION_DENIED ∧
    (createCameraError (.domException "NotFoundError" message)).type
        = .NO_DEVICES_FOUND ∧
    (createCameraError (.domException "NotReadableError" message)).type
        = .DEVICE_IN_USE ∧
    (createCameraError (.domException "OverconstrainedError" message)).type
        = .OVERCONSTRAINED ∧
    (createCameraError (.domException "AbortError" message)).type
        = .PERMISSION_DISMISSED ∧
    (createCameraError (.domException "SecurityError" message)).type
        = .NOT_SECURE_CONTEXT := by
  refine ⟨?_, ?_, rfl, rfl, rfl, rfl, rfl, rfl, rfl, rfl⟩
  · unfold createCameraError mapDOMExceptionToError
    cases h : domExceptionErrorMap name <;> simp [h]
  · unfold createCameraError mapDOMExceptionToError
    cases h : domExceptionErrorMap name <;> simp [h]

/-- C8: a requestPermission call that begins while a previous one is still
in flight (isRequesting holds) returns false immediately, performs zero
getUserMedia calls (so no second platform permission prompt), and leaves
the hook state exactly as it was. -/
theorem requestPermission_rejects_concurrent (s : PermissionHook.HookState)
    (env : PermEnv) (grant : Option JSValue) (h : s.isRequesting = true) :
    PermissionHook.requestPermission s env grant = (s, false, 0) := by
  unfold PermissionHook.requestPermission
  simp [h]

/-- Witness for C8 at a concrete in-flight state. -/
theorem requestPermission_rejects_concurrent_witness :
    PermissionHook.requestPermission
        { status := none, hasStream := false, isRequesting := true, error := none }
        { mediaDevicesSupported := true, secureContext := true, permissionsApi := none }
        none
      = ({ status := none, hasStream := false, isRequesting := true, error := none },
         false, 0) :=
  requestPermission_rejects_concurrent
    { status := none, hasStream := false, isRequesting := true, error := none }
    { mediaDevicesSupported := true, secureContext := true, permissionsApi := none }
    none rfl

/-- C10: getCameraPermissionStatus is a total function of the platform
environment; when the MediaDevices API is unsupported it reports state
denied (not prompt) with a NOT_SUPPORTED error, when supported but the
context is insecure it reports denied with a NOT_SECURE_CONTEXT error, and
only when supported and secure does it return the Permissions API answer
with no error, which degrades to prompt when that query is unavailable or
fails. -/
theorem getCameraPermissionStatus_spec (env : PermEnv) :
    (env.mediaDevicesSupported = false →
        (getCameraPermissionStatus env).state = .denied ∧
        (getCameraPermissionStatus env).state ≠ .prompt ∧
        ((getCameraPermissionStatus env).error.map (fun e => e.type))
          = some .NOT_SUPPORTED) ∧
    (env.mediaDevicesSupported = true → env.secureContext = false →
        (getCameraPermissionStatus env).state = .denied ∧
        ((getCameraPermissionStatus env).error.map (fun e => e.type))
          = some .NOT_SECURE_CONTEXT) ∧
    (env.mediaDevicesSupported = true → env.secureContext = true →
        (getCameraPermissionStatus env).state = queryCameraPermission env ∧
        (getCameraPermissionStatus env).error = none ∧
        ((env.permissionsApi = none ∨ env.permissionsApi = some none) →
            (getCameraPermissionStatus env).state = .prompt)) := by
  refine ⟨?_, ?_, ?_⟩
  · intro h
    simp [getCameraPermissionStatus, h]
  · intro h1 h2
    simp [getCameraPermissionStatus, h1, h2]
  · intro h1 h2
    refine ⟨by simp [getCameraPermissionStatus, h1, h2], by simp [getCameraPermissionStatus, h1, h2], ?_⟩
    intro hapi
    rcases hapi with h | h <;> simp [getCameraPermissionStatus, queryCameraPermission, h1, h2, h]

/-- Witness for C10: an unsupported environment reports denied with
NOT_SUPPORTED, and a supported secure environment whose Permissions API is
absent degrades to prompt. -/
theorem getCameraPermissionStatus_spec_witness :
    (getCameraPermissionStatus
        { mediaDevicesSupported := false, secureContext := true,
          permissionsApi := none }).state = .denied ∧
    (getCameraPermissionStatus
        { mediaDevicesSupported := true, secureContext := true,
          permissionsApi := none }).state = .prompt := by
  constructor
  · exact ((getCameraPermissionStatus_spec
      { mediaDevicesSupported := false, secureContext := true,
        permissionsApi := none }).1 rfl).1
  · exact ((getCameraPermissionStatus_spec
      { mediaDevicesSupported := true, secureContext := true,
        permissionsApi := none }).2.2 rfl rfl).2.2 (Or.inl rfl)

/-- Helper: a fallback label of the form Camera N is never the empty
string. -/
theorem cameraFallbackLabel_ne_empty (t : String) : "Camera " ++ t ≠ "" := by
  intro h
  have h2 : ("Camera " ++ t).length = ("" : String).length := by rw [h]
  rw [String.length_append] at h2
  have h3 : ("Camera " : String).length = 7 := rfl
  have h4 : ("" : String).length = 0 := rfl
  omega

/-- C9: enumerateCameraDevices returns the empty list when the MediaDevices
API is unsupported or the platform enumeration throws; otherwise every
returned entry has kind videoinput and a non-empty label, the entry at each
position i of the filtered videoinput list carries that device's id, its
label with an empty platform label replaced by Camera (i+1), and a facing
mode guessed from the lowercased platform label: user when it contains
front or user, else environment when it contains back, rear or environment,
else undefined. -/
theorem enumerateCameraDevices_spec :
    (∀ pd, enumerateCameraDevices false pd = []) ∧
    enumerateCameraDevices true none = [] ∧
    (∀ devs d, d ∈ enumerateCameraDevices true (some devs) →
        d.kind = "videoinput" ∧ d.label ≠ "") ∧
    (∀ devs (i : Nat),
        (enumerateCameraDevices true (some devs))[i]?
          = ((devs.filter (fun d => decide (d.kind = "videoinput")))[i]?).map
              (fun d =>
                { deviceId := d.deviceId,
                  label := if d.label = "" then "Camera " ++ toString (i + 1) else d.label,
                  kind := "videoinput",
                  facingMode := guessFacingMode d.label })) ∧
    (∀ label,
        (includesStr (lowercase label) "front" = true
          ∨ includesStr (lowercase label) "user" = true) →
        guessFacingMode label = some .user) ∧
    (∀ label,
        includesStr (lowercase label) "front" = false →
        includesStr (lowercase label) "user" = false →
        (includesStr (lowercase label) "back" = true
          ∨ includesStr (lowercase label) "rear" = true
          ∨ includesStr (lowercase label) "environment" = true) →
        guessFacingMode label = some .environment) ∧
    (∀ label,
        includesStr (lowercase label) "front" = false →
        includesStr (lowercase label) "user" = false →
        includesStr (lowercase label) "back" = false →
        includesStr (lowercase label) "rear" = false →
        includesStr (lowercase label) "environment" = false →
        guessFacingMode label = none) := by
  refine ⟨?_, rfl, ?_, ?_, ?_, ?_, ?_⟩
  · intro pd
    simp [enumerateCameraDevices]
  · intro devs d hd
    simp [enumerateCameraDevices, List.mem_map] at hd
    rcases hd with ⟨i, orig, hmem, heq⟩
    subst heq
    refine ⟨rfl, ?_⟩
    by_cases h : orig.label = "" <;> simp [h, cameraFallbackLabel_ne_empty]
  · intro devs i
    simp only [enumerateCameraDevices, List.getElem?_map, List.getElem?_enum]
    cases h : (devs.filter (fun d => decide (d.kind = "videoinput")))[i]? <;> simp [h]
  · intro label h
    rcases h with h | h <;> simp [guessFacingMode, h]
  · intro label h1 h2 h
    rcases h with h | h | h <;> simp [guessFacingMode, h1, h2, h]
  · intro label h1 h2 h3 h4 h5
    simp [guessFacingMode, h1, h2, h3, h4, h5]

/-- Witness for C9: a concrete one-device platform list checked through the
theorem's membership clause, and a back-facing label checked through its
facing-mode clause. -/
theorem enumerateCameraDevices_spec_witness :
    (({ deviceId := "idA", label := "Integrated Webcam", kind := "videoinput",
        facingMode := none } : CameraDevice).kind = "videoinput" ∧
     ({ deviceId := "idA", label := "Integrated Webcam", kind := "videoinput",
        facingMode := none } : CameraDevice).label ≠ "") ∧
    guessFacingMode "Back Camera" = some .environment :=
  ⟨enumerateCameraDevices_spec.2.2.1
      [{ deviceId := "idA", label := "Integrated Webcam", kind := "videoinput" }]
      { deviceId := "idA", label := "Integrated Webcam", kind := "videoinput",
        facingMode := none }
      (by decide),
   enumerateCameraDevices_spec.2.2.2.2.2.1 "Back Camera" (by decide) (by decide)
     (Or.inl (by decide))⟩

end QrReader
